import Mathlib

/-!
Shallow embedding of `runtime/near-runtime-fees/src/lib.rs`: the fee schedule
(`RuntimeFeesConfig`) describing the gas costs of creating receipts, together
with its cost-triple arithmetic and the two construction modes (`default`,
`free`).

`Gas` is `u64` in the source; it is embedded as `Nat`, with the 64-bit bound
made explicit in the checked-addition model where overflow matters.  The two
`Rational` parameters (`num_rational::Rational`, an exact reduced fraction)
are embedded as `ℚ`.
-/

namespace NearRuntimeFees

/-- `pub type Gas = u64;` — embedded as `Nat`; the 64-bit range is tracked
explicitly where overflow matters. -/
abbrev Gas := Nat

/-- The number of values of `u64`, i.e. `2^64`; a `Gas` value fits in the
machine type iff it is `< u64Size`. -/
def u64Size : Nat := 2 ^ 64

/-- Costs associated with an object that can only be sent over the network
(and executed by the receiver).  `sir` abbreviates "sender is receiver". -/
structure Fee where
  /-- Fee for sending an object from the sender to itself, guaranteeing that
  it does not leave the shard. -/
  send_sir : Gas
  /-- Fee for sending an object potentially across the shards. -/
  send_not_sir : Gas
  /-- Fee for executing the object. -/
  execution : Gas
deriving DecidableEq

/-- `Fee::send_fee(&self, sir: bool) -> Gas`: returns `send_sir` when `sir`
holds, `send_not_sir` otherwise. -/
def Fee.send_fee (f : Fee) (sir : Bool) : Gas :=
  if sir then f.send_sir else f.send_not_sir

/-- `Fee::exec_fee(&self) -> Gas`: returns the execution fee. -/
def Fee.exec_fee (f : Fee) : Gas :=
  f.execution

/-- `Fee::min_send_and_exec_fee(&self) -> Gas`: the minimum fee to send and
execute, `std::cmp::min(self.send_sir, self.send_not_sir) + self.execution`,
as the exact mathematical value of that formula. -/
def Fee.min_send_and_exec_fee (f : Fee) : Gas :=
  min f.send_sir f.send_not_sir + f.execution

/-- Modelled from the spec: the build profile that fixes the behaviour of
`u64` addition on overflow is part of the workspace configuration, which is
not under `src/`; the spec states that any addition that would overflow the
gas integer type is a fatal configuration error, never wrapped or saturated
silently.  Accordingly a `u64` addition is modelled as returning `none`
(fatal error) when the mathematical sum does not fit in 64 bits. -/
def checkedAddU64 (a b : Nat) : Option Nat :=
  if a + b < u64Size then some (a + b) else none

/-- `Fee::min_send_and_exec_fee` with its `u64` addition modelled as checked
(see `checkedAddU64`): `none` signals the fatal overflow error. -/
def Fee.min_send_and_exec_fee_checked (f : Fee) : Option Gas :=
  checkedAddU64 (min f.send_sir f.send_not_sir) f.execution

/-- Describes the cost of creating a data receipt, `DataReceipt`. -/
structure DataReceiptCreationConfig where
  /-- Base cost of creating a data receipt. -/
  base_cost : Fee
  /-- Additional cost per byte sent. -/
  cost_per_byte : Fee
deriving DecidableEq

/-- Describes the cost of creating an access key. -/
structure AccessKeyCreationConfig where
  /-- Base cost of creating a full access access-key. -/
  full_access_cost : Fee
  /-- Base cost of creating an access-key restricted to specific functions. -/
  function_call_cost : Fee
  /-- Cost per byte of method_names of creating a restricted access-key. -/
  function_call_cost_per_byte : Fee
deriving DecidableEq

/-- Describes the cost of creating a specific action, `Action`. -/
structure ActionCreationConfig where
  create_account_cost : Fee
  deploy_contract_cost : Fee
  deploy_contract_cost_per_byte : Fee
  function_call_cost : Fee
  function_call_cost_per_byte : Fee
  transfer_cost : Fee
  stake_cost : Fee
  add_key_cost : AccessKeyCreationConfig
  delete_key_cost : Fee
  delete_account_cost : Fee
deriving DecidableEq

/-- Describes cost of storage per block. -/
structure StorageUsageConfig where
  /-- Number of bytes for an account record, including rounding up for
  account id. -/
  num_bytes_account : Nat
  /-- Additional number of bytes for a k/v record. -/
  num_extra_bytes_record : Nat
deriving DecidableEq

/-- The full fee schedule. -/
structure RuntimeFeesConfig where
  action_receipt_creation_config : Fee
  data_receipt_creation_config : DataReceiptCreationConfig
  action_creation_config : ActionCreationConfig
  storage_usage_config : StorageUsageConfig
  /-- Fraction of the burnt gas to reward to the contract account for
  execution (`Rational` in the source, embedded as `ℚ`). -/
  burnt_gas_reward : ℚ
  /-- Pessimistic gas price inflation ratio (`Rational`, embedded as `ℚ`). -/
  pessimistic_gas_price_inflation_ratio : ℚ
deriving DecidableEq

/-- `impl Default for RuntimeFeesConfig`: the protocol's canonical fee table,
a fixed set of literal constants transcribed from the source. -/
def RuntimeFeesConfig.default : RuntimeFeesConfig where
  action_receipt_creation_config :=
    { send_sir := 151021812500
      send_not_sir := 151021812500
      execution := 151021812500 }
  data_receipt_creation_config :=
    { base_cost :=
        { send_sir := 1068762938750
          send_not_sir := 1068762938750
          execution := 1068762938750 }
      cost_per_byte :=
        { send_sir := 23982274
          send_not_sir := 23982274
          execution := 23982274 } }
  action_creation_config :=
    { create_account_cost :=
        { send_sir := 130476125000
          send_not_sir := 130476125000
          execution := 130476125000 }
      deploy_contract_cost :=
        { send_sir := 222739562500
          send_not_sir := 222739562500
          execution := 222739562500 }
      deploy_contract_cost_per_byte :=
        { send_sir := 6846508
          send_not_sir := 6846508
          execution := 6846508 }
      function_call_cost :=
        { send_sir := 2614094875000
          send_not_sir := 2614094875000
          execution := 2614094875000 }
      function_call_cost_per_byte :=
        { send_sir := 2521519
          send_not_sir := 2521519
          execution := 2521519 }
      transfer_cost :=
        { send_sir := 159813250000
          send_not_sir := 159813250000
          execution := 159813250000 }
      stake_cost :=
        { send_sir := 167840812500
          send_not_sir := 167840812500
          execution := 167840812500 }
      add_key_cost :=
        { full_access_cost :=
            { send_sir := 137640187500
              send_not_sir := 137640187500
              execution := 137640187500 }
          function_call_cost :=
            { send_sir := 135268437500
              send_not_sir := 135268437500
              execution := 135268437500 }
          function_call_cost_per_byte :=
            { send_sir := 22361438
              send_not_sir := 22361438
              execution := 22361438 } }
      delete_key_cost :=
        { send_sir := 122405750000
          send_not_sir := 122405750000
          execution := 122405750000 }
      delete_account_cost :=
        { send_sir := 205135750000
          send_not_sir := 205135750000
          execution := 205135750000 } }
  storage_usage_config :=
    { num_bytes_account := 100
      num_extra_bytes_record := 40 }
  burnt_gas_reward := 3 / 10
  pessimistic_gas_price_inflation_ratio := 103 / 100

/-- `RuntimeFeesConfig::free()`: the schedule with every cost zeroed
(`Rational::from_integer(0)` for the two ratios). -/
def RuntimeFeesConfig.free : RuntimeFeesConfig where
  action_receipt_creation_config :=
    { send_sir := 0, send_not_sir := 0, execution := 0 }
  data_receipt_creation_config :=
    { base_cost := { send_sir := 0, send_not_sir := 0, execution := 0 }
      cost_per_byte := { send_sir := 0, send_not_sir := 0, execution := 0 } }
  action_creation_config :=
    { create_account_cost := { send_sir := 0, send_not_sir := 0, execution := 0 }
      deploy_contract_cost := { send_sir := 0, send_not_sir := 0, execution := 0 }
      deploy_contract_cost_per_byte := { send_sir := 0, send_not_sir := 0, execution := 0 }
      function_call_cost := { send_sir := 0, send_not_sir := 0, execution := 0 }
      function_call_cost_per_byte := { send_sir := 0, send_not_sir := 0, execution := 0 }
      transfer_cost := { send_sir := 0, send_not_sir := 0, execution := 0 }
      stake_cost := { send_sir := 0, send_not_sir := 0, execution := 0 }
      add_key_cost :=
        { full_access_cost := { send_sir := 0, send_not_sir := 0, execution := 0 }
          function_call_cost := { send_sir := 0, send_not_sir := 0, execution := 0 }
          function_call_cost_per_byte := { send_sir := 0, send_not_sir := 0, execution := 0 } }
      delete_key_cost := { send_sir := 0, send_not_sir := 0, execution := 0 }
      delete_account_cost := { send_sir := 0, send_not_sir := 0, execution := 0 } }
  storage_usage_config := { num_bytes_account := 0, num_extra_bytes_record := 0 }
  burnt_gas_reward := 0
  pessimistic_gas_price_inflation_ratio := 0

/-- `RuntimeFeesConfig::min_receipt_with_function_call_gas(&self) -> Gas`:
the minimum amount of gas required to create and execute a new receipt with
a function call action, as the exact mathematical value of the source
formula. -/
def RuntimeFeesConfig.min_receipt_with_function_call_gas
    (c : RuntimeFeesConfig) : Gas :=
  c.action_receipt_creation_config.min_send_and_exec_fee
    + c.action_creation_config.function_call_cost.min_send_and_exec_fee

/-- `RuntimeFeesConfig::min_receipt_with_function_call_gas` with every `u64`
addition modelled as checked (see `checkedAddU64`). -/
def RuntimeFeesConfig.min_receipt_with_function_call_gas_checked
    (c : RuntimeFeesConfig) : Option Gas :=
  c.action_receipt_creation_config.min_send_and_exec_fee_checked.bind fun a =>
    c.action_creation_config.function_call_cost.min_send_and_exec_fee_checked.bind fun b =>
      checkedAddU64 a b

/-- All fifteen cost triples held by a schedule, in field order. -/
def RuntimeFeesConfig.allFees (c : RuntimeFeesConfig) : List Fee :=
  [ c.action_receipt_creation_config
  , c.data_receipt_creation_config.base_cost
  , c.data_receipt_creation_config.cost_per_byte
  , c.action_creation_config.create_account_cost
  , c.action_creation_config.deploy_contract_cost
  , c.action_creation_config.deploy_contract_cost_per_byte
  , c.action_creation_config.function_call_cost
  , c.action_creation_config.function_call_cost_per_byte
  , c.action_creation_config.transfer_cost
  , c.action_creation_config.stake_cost
  , c.action_creation_config.add_key_cost.full_access_cost
  , c.action_creation_config.add_key_cost.function_call_cost
  , c.action_creation_config.add_key_cost.function_call_cost_per_byte
  , c.action_creation_config.delete_key_cost
  , c.action_creation_config.delete_account_cost ]

/-- Characterisation of the checked `u64` addition: it returns a value
exactly when the mathematical sum fits in 64 bits, and then returns that
sum. -/
theorem checkedAddU64_some_iff (a b c : Nat) :
    checkedAddU64 a b = some c ↔ a + b = c ∧ a + b < u64Size := by
  by_cases h : a + b < u64Size <;> simp [checkedAddU64, h]

/-- The checked fee computation returns a value exactly when the exact
mathematical fee fits in 64 bits, and then returns that fee. -/
theorem min_send_and_exec_fee_checked_some_iff (t : Fee) (g : Gas) :
    t.min_send_and_exec_fee_checked = some g ↔
      t.min_send_and_exec_fee = g ∧ t.min_send_and_exec_fee < u64Size := by
  unfold Fee.min_send_and_exec_fee_checked Fee.min_send_and_exec_fee
  exact checkedAddU64_some_iff _ _ _

/-- C1: the claim states that for the default schedule the data-receipt
depth invariant holds, i.e. that the base cost of a data receipt is at
least `min_receipt_with_function_call_gas`.  Evaluating the shipped default
constants refutes this: the left side is 2137525877500 and the right side
is 5530233375000, so the inequality asserted by the claim (and by the
in-repository regression test `test_data_roundtrip_is_more_expensive`)
fails on the default schedule. -/
theorem default_violates_data_receipt_depth_invariant :
    RuntimeFeesConfig.default.data_receipt_creation_config.base_cost.min_send_and_exec_fee
        = 2137525877500
      ∧ RuntimeFeesConfig.default.min_receipt_with_function_call_gas = 5530233375000
      ∧ ¬ (RuntimeFeesConfig.default.data_receipt_creation_config.base_cost.min_send_and_exec_fee
            ≥ RuntimeFeesConfig.default.min_receipt_with_function_call_gas) := by
  decide

/-- C2: for every schedule, `min_receipt_with_function_call_gas` equals
`min_send_and_exec_fee` of the action-receipt creation cost plus
`min_send_and_exec_fee` of the function-call action cost; moreover whenever
the overflow-checked computation returns a value, that value agrees with
this mathematical sum. -/
theorem min_receipt_with_function_call_gas_is_sum_of_min_fees
    (s : RuntimeFeesConfig) (g : Gas)
    (h : s.min_receipt_with_function_call_gas_checked = some g) :
    s.min_receipt_with_function_call_gas
        = s.action_receipt_creation_config.min_send_and_exec_fee
          + s.action_creation_config.function_call_cost.min_send_and_exec_fee
      ∧ g = s.min_receipt_with_function_call_gas := by
  refine ⟨rfl, ?_⟩
  simp only [RuntimeFeesConfig.min_receipt_with_function_call_gas_checked,
    Option.bind_eq_some] at h
  obtain ⟨a, ha, b, hb, hab⟩ := h
  rw [min_send_and_exec_fee_checked_some_iff] at ha hb
  rw [checkedAddU64_some_iff] at hab
  simp only [RuntimeFeesConfig.min_receipt_with_function_call_gas]
  rw [ha.1, hb.1]
  exact hab.1.symm

/-- Witness for C2 at the default schedule, whose checked computation
returns 5530233375000. -/
theorem min_receipt_with_function_call_gas_is_sum_of_min_fees_witness :
    RuntimeFeesConfig.default.min_receipt_with_function_call_gas
        = RuntimeFeesConfig.default.action_receipt_creation_config.min_send_and_exec_fee
          + RuntimeFeesConfig.default.action_creation_config.function_call_cost.min_send_and_exec_fee
      ∧ (5530233375000 : Gas)
        = RuntimeFeesConfig.default.min_receipt_with_function_call_gas :=
  min_receipt_with_function_call_gas_is_sum_of_min_fees
    RuntimeFeesConfig.default 5530233375000 (by decide)

/-- C3: for every cost triple, `min_send_and_exec_fee` equals the minimum
of the two send fees plus the execution fee; moreover whenever the
overflow-checked computation returns a value, that value agrees with this
mathematical sum. -/
theorem min_send_and_exec_fee_formula (t : Fee) (g : Gas)
    (h : t.min_send_and_exec_fee_checked = some g) :
    t.min_send_and_exec_fee = min t.send_sir t.send_not_sir + t.execution
      ∧ g = t.min_send_and_exec_fee := by
  refine ⟨rfl, ?_⟩
  rw [min_send_and_exec_fee_checked_some_iff] at h
  exact h.1.symm

/-- Witness for C3 at the concrete triple (3, 5, 7), whose checked
computation returns 10. -/
theorem min_send_and_exec_fee_formula_witness :
    (Fee.mk 3 5 7).min_send_and_exec_fee
        = min (Fee.mk 3 5 7).send_sir (Fee.mk 3 5 7).send_not_sir
          + (Fee.mk 3 5 7).execution
      ∧ (10 : Gas) = (Fee.mk 3 5 7).min_send_and_exec_fee :=
  min_send_and_exec_fee_formula (Fee.mk 3 5 7) 10 (by decide)

/-- C4: for every cost triple, `send_fee` returns `send_sir` for the flag
`true` and `send_not_sir` for the flag `false`; it is a pure total
selection with no other effect. -/
theorem send_fee_selects_by_flag (t : Fee) :
    t.send_fee true = t.send_sir ∧ t.send_fee false = t.send_not_sir :=
  ⟨rfl, rfl⟩

/-- C5 counterexample: with the shipped default constants,
`min_receipt_with_function_call_gas` does not equal the total 5530232375000
stated by the claim. -/
theorem default_min_receipt_gas_ne_spec_total :
    RuntimeFeesConfig.default.min_receipt_with_function_call_gas ≠ 5530232375000 := by
  decide

/-- C5 (amended): the default schedule's action-receipt creation triple is
(151021812500, 151021812500, 151021812500), its function-call cost triple
is (2614094875000, 2614094875000, 2614094875000), and
`min_receipt_with_function_call_gas` computed from them equals
5530233375000 (the claim's total 5530232375000 is an arithmetic slip). -/
theorem default_min_receipt_gas_value :
    RuntimeFeesConfig.default.action_receipt_creation_config
        = Fee.mk 151021812500 151021812500 151021812500
      ∧ RuntimeFeesConfig.default.action_creation_config.function_call_cost
        = Fee.mk 2614094875000 2614094875000 2614094875000
      ∧ RuntimeFeesConfig.default.min_receipt_with_function_call_gas
        = 5530233375000 := by
  decide

/-- C6: the free schedule zeroes every gas field of every cost triple, both
storage-accounting constants, and both rational parameters. -/
theorem free_schedule_all_zero :
    RuntimeFeesConfig.free.allFees = List.replicate 15 (Fee.mk 0 0 0)
      ∧ RuntimeFeesConfig.free.storage_usage_config.num_bytes_account = 0
      ∧ RuntimeFeesConfig.free.storage_usage_config.num_extra_bytes_record = 0
      ∧ RuntimeFeesConfig.free.burnt_gas_reward = 0
      ∧ RuntimeFeesConfig.free.pessimistic_gas_price_inflation_ratio = 0 :=
  ⟨by decide, rfl, rfl, rfl, rfl⟩

/-- C7: for the free schedule the depth invariant holds trivially: both the
data-receipt base cost's `min_send_and_exec_fee` and
`min_receipt_with_function_call_gas` are zero, and 0 ≥ 0. -/
theorem free_schedule_invariant_trivial :
    RuntimeFeesConfig.free.data_receipt_creation_config.base_cost.min_send_and_exec_fee = 0
      ∧ RuntimeFeesConfig.free.min_receipt_with_function_call_gas = 0
      ∧ RuntimeFeesConfig.free.data_receipt_creation_config.base_cost.min_send_and_exec_fee
          ≥ RuntimeFeesConfig.free.min_receipt_with_function_call_gas := by
  decide

/-- C8: under the overflow-checked model of the `u64` additions (the build
profile making overflow fatal is outside `src/`, so the spec's
overflow-is-fatal behaviour is modelled by `checkedAddU64`), the additions
in `min_send_and_exec_fee` and `min_receipt_with_function_call_gas` never
silently wrap: any returned value is the exact mathematical sum and fits in
64 bits, and any sum exceeding the 64-bit range is signalled as the fatal
error `none`. -/
theorem checked_gas_additions_never_wrap (f : Fee) (c : RuntimeFeesConfig) :
    (∀ g : Gas, f.min_send_and_exec_fee_checked = some g →
        g = f.min_send_and_exec_fee ∧ g < u64Size)
      ∧ (u64Size ≤ f.min_send_and_exec_fee → f.min_send_and_exec_fee_checked = none)
      ∧ (∀ g : Gas, c.min_receipt_with_function_call_gas_checked = some g →
          g = c.min_receipt_with_function_call_gas ∧ g < u64Size)
      ∧ (u64Size ≤ c.min_receipt_with_function_call_gas →
          c.min_receipt_with_function_call_gas_checked = none) := by
  have hsome : ∀ (t : Fee) (g : Gas), t.min_send_and_exec_fee_checked = some g →
      g = t.min_send_and_exec_fee ∧ g < u64Size := by
    intro t g hg
    rw [min_send_and_exec_fee_checked_some_iff] at hg
    exact ⟨hg.1.symm, hg.1 ▸ hg.2⟩
  have hnone : ∀ t : Fee, u64Size ≤ t.min_send_and_exec_fee →
      t.min_send_and_exec_fee_checked = none := by
    intro t ht
    cases hc : t.min_send_and_exec_fee_checked with
    | none => rfl
    | some g =>
      rw [min_send_and_exec_fee_checked_some_iff] at hc
      exact absurd hc.2 (Nat.not_lt.mpr ht)
  have hrsome : ∀ g : Gas, c.min_receipt_with_function_call_gas_checked = some g →
      g = c.min_receipt_with_function_call_gas ∧ g < u64Size := by
    intro g hg
    simp only [RuntimeFeesConfig.min_receipt_with_function_call_gas_checked,
      Option.bind_eq_some] at hg
    obtain ⟨a, ha, b, hb, hab⟩ := hg
    rw [min_send_and_exec_fee_checked_some_iff] at ha hb
    rw [checkedAddU64_some_iff] at hab
    simp only [RuntimeFeesConfig.min_receipt_with_function_call_gas]
    rw [ha.1, hb.1]
    exact ⟨hab.1.symm, hab.1 ▸ hab.2⟩
  refine ⟨fun g => hsome f g, hnone f, hrsome, ?_⟩
  intro hover
  cases hc : c.min_receipt_with_function_call_gas_checked with
  | none => rfl
  | some g =>
    obtain ⟨hg1, hg2⟩ := hrsome g hc
    exact absurd (hg1 ▸ hg2) (Nat.not_lt.mpr hover)

/-- Witness for C8: a triple summing to exactly 2^64 is signalled as a
fatal overflow, and a small triple's checked value equals the exact sum. -/
theorem checked_gas_additions_never_wrap_witness :
    (Fee.mk (2 ^ 63) (2 ^ 63) (2 ^ 63)).min_send_and_exec_fee_checked = none
      ∧ ((10 : Gas) = (Fee.mk 3 5 7).min_send_and_exec_fee ∧ (10 : Gas) < u64Size) :=
  ⟨(checked_gas_additions_never_wrap (Fee.mk (2 ^ 63) (2 ^ 63) (2 ^ 63))
      RuntimeFeesConfig.free).2.1 (by decide),
   (checked_gas_additions_never_wrap (Fee.mk 3 5 7) RuntimeFeesConfig.free).1
      10 (by decide)⟩

/-- C9: constructing the default schedule is deterministic: any two values
produced by `RuntimeFeesConfig.default` are structurally identical — the
construction is a pure constant with no dependence on time, randomness or
prior calls — and carry the rational parameters 3/10 and 103/100. -/
theorem default_construction_deterministic
    (x y : RuntimeFeesConfig) (hx : x = RuntimeFeesConfig.default)
    (hy : y = RuntimeFeesConfig.default) :
    x = y ∧ x.burnt_gas_reward = 3 / 10
      ∧ x.pessimistic_gas_price_inflation_ratio = 103 / 100 := by
  subst hx
  subst hy
  exact ⟨rfl, rfl, rfl⟩

/-- Witness for C9 at two invocations of the default constructor. -/
theorem default_construction_deterministic_witness :
    RuntimeFeesConfig.default = RuntimeFeesConfig.default
      ∧ RuntimeFeesConfig.default.burnt_gas_reward = 3 / 10
      ∧ RuntimeFeesConfig.default.pessimistic_gas_price_inflation_ratio = 103 / 100 :=
  default_construction_deterministic RuntimeFeesConfig.default RuntimeFeesConfig.default
    rfl rfl

/-- C10: every cost triple of the default schedule is uniform
(`send_sir = send_not_sir = execution`); consequently `send_fee` is
independent of the same-shard flag and `min_send_and_exec_fee` equals twice
the execution fee. -/
theorem default_fees_uniform (t : Fee) (b₁ b₂ : Bool)
    (ht : t ∈ RuntimeFeesConfig.default.allFees) :
    (t.send_sir = t.send_not_sir ∧ t.send_not_sir = t.execution)
      ∧ t.send_fee b₁ = t.send_fee b₂
      ∧ t.min_send_and_exec_fee = 2 * t.execution := by
  fin_cases ht <;> cases b₁ <;> cases b₂ <;> decide

/-- Witness for C10 at the action-receipt creation triple of the default
schedule, with the two flag values true and false. -/
theorem default_fees_uniform_witness :
    (RuntimeFeesConfig.default.action_receipt_creation_config.send_sir
        = RuntimeFeesConfig.default.action_receipt_creation_config.send_not_sir
      ∧ RuntimeFeesConfig.default.action_receipt_creation_config.send_not_sir
        = RuntimeFeesConfig.default.action_receipt_creation_config.execution)
      ∧ RuntimeFeesConfig.default.action_receipt_creation_config.send_fee true
        = RuntimeFeesConfig.default.action_receipt_creation_config.send_fee false
      ∧ RuntimeFeesConfig.default.action_receipt_creation_config.min_send_and_exec_fee
        = 2 * RuntimeFeesConfig.default.action_receipt_creation_config.execution :=
  default_fees_uniform RuntimeFeesConfig.default.action_receipt_creation_config
    true false (by decide)

end NearRuntimeFees
